import Mathlib

/-!
# Verification of the LaRa Adaptive Regulation & Memory Engine

This development embeds the decision core of the LaRa system (signal fusion,
mood consensus, session state with two-phase updates, the hysteretic
difficulty gate, reinforcement-style adaptation, lazy emotional-metric decay)
together with two services of the therapist dashboard backend
(`PredictiveAnalyticsService`, `CalibrationService`) and proves the
documented safety and correctness properties about them.

The engine components (`session_state.py`, `mood_detector.py`,
`reinforcement_manager.py`, `user_memory.py`, ...) are described by the
repository's design documents but their implementation files are not part of
the repository snapshot; those components are therefore modelled from the
specification text.  The dashboard services are embedded directly from the
Java sources, with `double` arithmetic rendered over `ℚ`.
-/

namespace LaRa

/-! ## Mood and readings -/

/-- The closed mood enumeration used throughout the engine
(`mood_detector.py` mood categories). -/
inductive Mood where
  | neutral
  | happy
  | frustrated
  | anxious
  | sad
  | quiet
deriving DecidableEq, Repr

/-- Modelled from the spec: a fused per-utterance mood reading
(`MoodReading`: mood plus confidence in [0,1]). -/
structure MoodReading where
  mood : Mood
  confidence : ℚ
deriving DecidableEq, Repr

/-- Stable moods are the neutral/happy classifications; the stability streak
counts consecutive stable turns (adaptive difficulty rules: "3 consecutive
stable (neutral/happy) turns"). -/
def Mood.isStable : Mood → Bool
  | .neutral => true
  | .happy => true
  | _ => false

/-! ## SessionState and the two-phase update

Modelled from the spec: `session_state.py` is listed in the design documents
(fields `current_difficulty` 1-5, streak counters, `difficulty_locked_turns`
cooldown, `turn_count`, mood, mood confidence) but is not present in the
repository snapshot. -/

/-- Modelled from the spec: the per-session mutable record of
`session_state.py`: current difficulty (integer, invariant 1..5), streak
counters, difficulty lock cooldown, turn count, and the current mood
reading. -/
structure SessionState where
  currentDifficulty : ℤ
  consecutiveFrustration : ℕ
  consecutiveStability : ℕ
  difficultyLockedTurns : ℕ
  turnCount : ℕ
  mood : Mood
  moodConfidence : ℚ
deriving DecidableEq, Repr

/-- The input of one conversational turn as seen by the regulation core:
the consensus mood, its confidence, and whether the task outcome of the
turn was a success. -/
structure TurnInput where
  mood : Mood
  confidence : ℚ
  success : Bool
deriving DecidableEq, Repr

/-- Modelled from the spec: `update_pre_decision(mood, confidence)` runs
before any gate/strategy logic and updates only mood, confidence and the
streak counters (increment the same-mood streak, reset the opposing
streak). -/
def preDecision (st : SessionState) (m : Mood) (c : ℚ) : SessionState :=
  { st with
    mood := m
    moodConfidence := c
    consecutiveFrustration :=
      if m = Mood.frustrated then st.consecutiveFrustration + 1 else 0
    consecutiveStability :=
      if m.isStable then st.consecutiveStability + 1 else 0 }

/-- Modelled from the spec: the DifficultyGate decision (difficulty delta).
Transitions fire only while unlocked (`difficulty_locked_turns = 0`):
decrease when the frustration streak is ≥ 2 and mood confidence ≥ 0.6;
increase when the stability streak is ≥ 3, mood confidence ≥ 0.6 and the
last task outcome was a success; otherwise no change. -/
def gateDecision (st : SessionState) (success : Bool) : ℤ :=
  if 0 < st.difficultyLockedTurns then 0
  else if 2 ≤ st.consecutiveFrustration ∧ (3/5 : ℚ) ≤ st.moodConfidence then -1
  else if 3 ≤ st.consecutiveStability ∧ (3/5 : ℚ) ≤ st.moodConfidence ∧ success then 1
  else 0

/-- Modelled from the spec: `update_post_response(difficulty_delta, ...)`
finalizes the turn: the difficulty delta is applied with floor 1 and
ceiling 5, any difficulty change enters the 2-turn lock, an existing lock
counter is decremented each turn regardless of signals, and the turn count
advances. -/
def postResponse (st : SessionState) (delta : ℤ) : SessionState :=
  { st with
    currentDifficulty := min 5 (max 1 (st.currentDifficulty + delta))
    difficultyLockedTurns :=
      if delta ≠ 0 then 2 else st.difficultyLockedTurns - 1
    turnCount := st.turnCount + 1 }

/-- One full pipeline turn: pre-decision update, gate decision, then the
post-response update. -/
def sessionTurn (st : SessionState) (t : TurnInput) : SessionState :=
  let st1 := preDecision st t.mood t.confidence
  postResponse st1 (gateDecision st1 t.success)

/-- The per-turn trace of session states produced by a sequence of turns. -/
def sessionTrace (st : SessionState) : List TurnInput → List SessionState
  | [] => []
  | t :: rest =>
    let st2 := sessionTurn st t
    st2 :: sessionTrace st2 rest

/-- The per-turn difficulty-change flags of a sequence of turns: `true` at
a position when that turn actually changed `currentDifficulty`. -/
def changeFlags (st : SessionState) : List TurnInput → List Bool
  | [] => []
  | t :: rest =>
    let st2 := sessionTurn st t
    decide (st2.currentDifficulty ≠ st.currentDifficulty) :: changeFlags st2 rest

/-- The per-turn difficulty deltas emitted by the DifficultyGate along a
sequence of turns. -/
def turnDeltas (st : SessionState) : List TurnInput → List ℤ
  | [] => []
  | t :: rest =>
    let st1 := preDecision st t.mood t.confidence
    let d := gateDecision st1 t.success
    d :: turnDeltas (postResponse st1 d) rest

/-! ## SignalFusion

Modelled from the spec: the per-utterance combination of the text-derived
and audio-derived confidences (`mood_detector.py` signal combination). -/

/-- Modelled from the spec: SignalFusion's confidence combination.  Weights
default to 0.6 text / 0.4 audio and shift to 0.35 text / 0.65 audio when
the text confidence is below 0.2; the output is the weighted sum clipped
to [0,1]. -/
def fuseConfidence (textConf audioConf : ℚ) : ℚ :=
  let wText : ℚ := if textConf < 1/5 then 7/20 else 3/5
  let wAudio : ℚ := if textConf < 1/5 then 13/20 else 2/5
  min 1 (max 0 (wText * textConf + wAudio * audioConf))

/-! ## MoodConsensus

Modelled from the spec: temporal smoothing in `mood_detector.py`: a
3-reading sliding window, 2-of-3 consensus to change the established mood,
and confidence decay by 0.8 on the second consecutive neutral reading
rather than an immediate reset of the established mood. -/

/-- Modelled from the spec: the MoodConsensus state: the retained last
(at most) 3 fused readings, newest first, the established mood with its
reported confidence, and the consecutive-neutral counter driving the decay
toward neutral. -/
structure ConsensusState where
  window : List MoodReading
  mood : Mood
  confidence : ℚ
  consecutiveNeutral : ℕ
deriving DecidableEq, Repr

/-- The initial consensus state: empty window, neutral mood, zero
confidence. -/
def initialConsensus : ConsensusState :=
  { window := [], mood := Mood.neutral, confidence := 0, consecutiveNeutral := 0 }

/-- Modelled from the spec: one MoodConsensus update with a fused reading.
The window keeps the last 3 readings.  A reading matching the established
mood refreshes the confidence.  A neutral reading never resets an
established non-neutral mood outright: from the second consecutive neutral
reading on, the reported confidence is the reading's confidence decayed by
0.8.  Any other mood change is accepted only when the new mood appears in
at least 2 of the last 3 readings, in which case the reading's mood and
confidence are adopted. -/
def consensusStep (st : ConsensusState) (r : MoodReading) : ConsensusState :=
  if r.mood = st.mood then
    { window := (r :: st.window).take 3, mood := st.mood, confidence := r.confidence,
      consecutiveNeutral :=
        if r.mood = Mood.neutral then st.consecutiveNeutral + 1 else 0 }
  else if r.mood = Mood.neutral then
    if 1 ≤ st.consecutiveNeutral then
      { window := (r :: st.window).take 3, mood := st.mood,
        confidence := r.confidence * (4/5),
        consecutiveNeutral := st.consecutiveNeutral + 1 }
    else
      { window := (r :: st.window).take 3, mood := st.mood,
        confidence := st.confidence,
        consecutiveNeutral := st.consecutiveNeutral + 1 }
  else if 2 ≤ ((r :: st.window).take 3).countP (fun x => x.mood = r.mood) then
    { window := (r :: st.window).take 3, mood := r.mood, confidence := r.confidence,
      consecutiveNeutral := 0 }
  else
    { window := (r :: st.window).take 3, mood := st.mood, confidence := st.confidence,
      consecutiveNeutral := 0 }

/-- Folding a sequence of fused readings through MoodConsensus. -/
def consensusRun (st : ConsensusState) (rs : List MoodReading) : ConsensusState :=
  rs.foldl consensusStep st

/-! ## ReinforcementAdaptationManager

Modelled from the spec: `reinforcement_manager.py` session-end adaptation:
candidates need at least 5 recorded events this session and a success rate
at least 15 percentage points above the active style's; at most one switch
per session (subsequent candidate checks are ignored once a switch has
occurred). -/

/-- The closed reinforcement style enumeration. -/
inductive ReinforcementStyle where
  | praiseBased
  | achievementBased
  | calmValidation
  | playfulEncouragement
deriving DecidableEq, Repr

/-- Session-local per-style counters: recorded events and successes. -/
structure StyleStats where
  events : ℕ
  successes : ℕ
deriving DecidableEq, Repr

/-- The success rate of a style's session counters (0 when no events were
recorded). -/
def successRate (s : StyleStats) : ℚ :=
  if s.events = 0 then 0 else (s.successes : ℚ) / (s.events : ℚ)

/-- Modelled from the spec: eligibility of a candidate style at session
end: at least 5 recorded events this session and a success rate exceeding
the active style's by at least 15 percentage points. -/
def eligibleSwitch (stats : ReinforcementStyle → StyleStats)
    (active cand : ReinforcementStyle) : Bool :=
  decide (5 ≤ (stats cand).events) &&
  decide (successRate (stats active) + 3/20 ≤ successRate (stats cand))

/-- Modelled from the spec: one candidate check of the session-end
adaptation.  The accumulator holds the selected style and whether a switch
has already occurred; once a switch has occurred all subsequent candidate
checks are ignored. -/
def checkCandidate (stats : ReinforcementStyle → StyleStats)
    (active : ReinforcementStyle) (acc : ReinforcementStyle × Bool)
    (cand : ReinforcementStyle) : ReinforcementStyle × Bool :=
  if acc.2 then acc
  else if eligibleSwitch stats active cand then (cand, true)
  else acc

/-- Modelled from the spec: the session-end adaptation: fold the candidate
checks over the candidate styles, starting from the active style with no
switch recorded. -/
def sessionEndAdapt (stats : ReinforcementStyle → StyleStats)
    (active : ReinforcementStyle) (cands : List ReinforcementStyle) :
    ReinforcementStyle × Bool :=
  cands.foldl (checkCandidate stats active) (active, false)

/-- The reinforcement scenario of the documentation: PRAISE_BASED with
6 events and 5 successes this session against the active CALM_VALIDATION
with 6 events and 3 successes. -/
def scenarioStats : ReinforcementStyle → StyleStats
  | ReinforcementStyle.praiseBased => { events := 6, successes := 5 }
  | ReinforcementStyle.calmValidation => { events := 6, successes := 3 }
  | _ => { events := 0, successes := 0 }

/-! ## Emotional-metric decay

Modelled from the spec: `user_memory.py` multiplies the stored emotional
counters by 0.95 per elapsed 24-hour period, compounding, applied lazily
on the next read from the stored decay timestamp (no background timer). -/

/-- The per-period decay factor 0.95. -/
def decayFactor : ℚ := 19/20

/-- Modelled from the spec: the persisted emotional counters together with
the timestamp (in hours) up to which decay has been applied. -/
structure EmotionalMetrics where
  frustrationCount : ℚ
  recoveryCount : ℚ
  stabilityCount : ℚ
  lastDecayTimestamp : ℕ
deriving DecidableEq, Repr

/-- The number of whole 24-hour periods elapsed between the stored decay
timestamp and the current time (both in hours). -/
def elapsedDays (lastTs now : ℕ) : ℕ :=
  (now - lastTs) / 24

/-- Modelled from the spec: the lazy decayed read.  The next read applies
the compounded factor 0.95^n for the n whole 24-hour periods elapsed since
the stored decay timestamp, and advances the timestamp by the consumed
periods. -/
def readMetrics (m : EmotionalMetrics) (now : ℕ) : EmotionalMetrics :=
  let n := elapsedDays m.lastDecayTimestamp now
  { frustrationCount := m.frustrationCount * decayFactor ^ n
    recoveryCount := m.recoveryCount * decayFactor ^ n
    stabilityCount := m.stabilityCount * decayFactor ^ n
    lastDecayTimestamp := m.lastDecayTimestamp + 24 * n }

/-! ## Persistence boundary and degraded sessions

Modelled from the spec: on a persistence read failure at session start the
engine proceeds with hardcoded safe defaults (difficulty 1, calm
validation, empty preferences), flags the session as degraded, and
attempts no write-back at session end. -/

/-- Modelled from the spec: the `UserBaseline` snapshot read at session
start: baseline difficulty, reinforcement style and the stored
topic/sentiment preference pairs. -/
structure UserBaseline where
  difficulty : ℤ
  style : ReinforcementStyle
  preferences : List (String × String)
deriving DecidableEq, Repr

/-- Modelled from the spec: the hardcoded safe defaults used when the
persistence read fails: difficulty 1, calm validation, empty
preferences. -/
def defaultBaseline : UserBaseline :=
  { difficulty := 1, style := ReinforcementStyle.calmValidation, preferences := [] }

/-- A session as initialized at session start: the baseline in effect and
the degraded flag. -/
structure EngineSession where
  baseline : UserBaseline
  degraded : Bool
deriving DecidableEq, Repr

/-- Modelled from the spec: session initialization from the persistence
read result.  A successful read installs the stored baseline; a failed
read (`none`) installs the safe defaults and flags the session as
degraded. -/
def initSession : Option UserBaseline → EngineSession
  | some b => { baseline := b, degraded := false }
  | none => { baseline := defaultBaseline, degraded := true }

/-- Modelled from the spec: the aggregate delta offered to the persistence
layer at session end: counter increments and an optional reinforcement
style change. -/
structure AggregateDelta where
  frustrationInc : ℕ
  recoveryInc : ℕ
  stabilityInc : ℕ
  styleChange : Option ReinforcementStyle
deriving DecidableEq, Repr

/-- Modelled from the spec: the session-end write attempt.  A degraded
session attempts no write-back (`none`); otherwise the aggregate delta is
handed to the persistence layer. -/
def sessionEndWrite (s : EngineSession) (delta : AggregateDelta) :
    Option AggregateDelta :=
  if s.degraded then none else some delta

/-! ## PredictiveAnalyticsService (dashboard backend)

Embedded from `PredictiveAnalyticsService.java` (the version carrying the
adaptive-window/EWMA/uncertainty fields).  `double` arithmetic is rendered
over `ℚ`. -/

/-- The fields of `EmotionalMetric` used by the predictive analytics
computation. -/
structure EmotionalMetric where
  frustrationScore : ℚ
  bayesianConfidenceScore : ℚ
deriving DecidableEq, Repr

/-- The field of `ZpdMetric` used by the plateau detection. -/
structure ZpdMetric where
  masteryLevel : ℚ
deriving DecidableEq, Repr

/-- `calculateConfidenceWidth`: 0.5 for an empty metric list, otherwise
`min(0.4, 0.2 + (1 - lastBayesianConfidence) * 0.15)`. -/
def calculateConfidenceWidth (metrics : List EmotionalMetric) : ℚ :=
  match metrics.getLast? with
  | none => 1/2
  | some m => min (2/5) (1/5 + (1 - m.bayesianConfidenceScore) * (3/20))

/-- The EWMA recurrence of `calculateEWMAFrustration`:
`ewma := 0.3 * score + 0.7 * ewma`, folded over the scores after the
first. -/
def ewmaFold (init : ℚ) (scores : List ℚ) : ℚ :=
  scores.foldl (fun acc s => (3/10) * s + (7/10) * acc) init

/-- `calculateEWMAFrustration`: 0 for fewer than two metrics, otherwise the
EWMA of the frustration scores (seeded with the first score) divided by 10
and capped at 1. -/
def calculateEWMAFrustration (metrics : List EmotionalMetric) : ℚ :=
  match metrics with
  | [] => 0
  | [_] => 0
  | m :: rest =>
    min 1 (ewmaFold m.frustrationScore (rest.map (fun x => x.frustrationScore)) / 10)

/-- `detectPlateauProbability`: 0 for fewer than two metrics; otherwise the
slope `(last − first) / size` is compared against ε = 0.02: below ε the
probability is `min(1, 0.5 + |slope|)`, otherwise the baseline 0.1. -/
def detectPlateauProbability (metrics : List ZpdMetric) : ℚ :=
  match metrics with
  | [] => 0
  | [_] => 0
  | m :: rest =>
    let first := m.masteryLevel
    let lst := ((m :: rest).getLast (List.cons_ne_nil m rest)).masteryLevel
    let slope := (lst - first) / (((m :: rest).length : ℕ) : ℚ)
    if slope < 1/50 then min 1 (1/2 + |slope|) else 1/10

/-- `determineAlertTier`: tier 3 when the lower bound exceeds 0.7, tier 2
when the upper bound exceeds 0.6 and the lower bound exceeds 0.3, tier 1
when the upper bound exceeds 0.3, tier 0 otherwise. -/
def determineAlertTier (lowerBound upperBound : ℚ) : ℤ :=
  if 7/10 < lowerBound then 3
  else if 3/5 < upperBound ∧ 3/10 < lowerBound then 2
  else if 3/10 < upperBound then 1
  else 0

/-- The result fields of `computePredictiveRisks` relevant to its risk
envelope. -/
structure PredictiveRiskResult where
  frustrationRiskScore : ℚ
  masteryStagnationProbability : ℚ
  interventionEscalationLikelihood : ℚ
  clinicalAlertTier : ℤ
  uncertaintyMargin : ℚ
  riskLowerBound : ℚ
  riskUpperBound : ℚ
deriving DecidableEq, Repr

/-- `computePredictiveRisks` on the metric lists returned by the
repositories: frustration risk and stagnation probability are combined
with weights 0.7/0.3 into the escalation likelihood, the confidence width
is propagated into `[max(0, L − w), min(1, L + w)]`, and the alert tier is
derived from the bounds. -/
def computePredictiveRisks (recentEmotions : List EmotionalMetric)
    (recentZpd : List ZpdMetric) : PredictiveRiskResult :=
  let frustrationRisk := calculateEWMAFrustration recentEmotions
  let stagnationProb := detectPlateauProbability recentZpd
  let escalationLikelihood := frustrationRisk * (7/10) + stagnationProb * (3/10)
  let confidenceWidth := calculateConfidenceWidth recentEmotions
  let riskLowerBound := max 0 (escalationLikelihood - confidenceWidth)
  let riskUpperBound := min 1 (escalationLikelihood + confidenceWidth)
  { frustrationRiskScore := frustrationRisk
    masteryStagnationProbability := stagnationProb
    interventionEscalationLikelihood := escalationLikelihood
    clinicalAlertTier := determineAlertTier riskLowerBound riskUpperBound
    uncertaintyMargin := confidenceWidth
    riskLowerBound := riskLowerBound
    riskUpperBound := riskUpperBound }

/-! ## CalibrationService (dashboard backend)

Embedded from `CalibrationService.java`. -/

/-- The fields of `CalibrationLog` used by the calibration metrics. -/
structure CalibrationLog where
  predictedProbability : ℚ
  actualOutcome : ℤ
deriving DecidableEq, Repr

/-- Java's `(int)` cast of a `double`: truncation toward zero. -/
def javaIntCast (q : ℚ) : ℤ :=
  if 0 ≤ q then ⌊q⌋ else -⌊-q⌋

/-- The reliability-bin index of `computeReliabilityBins`:
`min((int)(p * numBins), numBins − 1)`. -/
def binIndex (numBins : ℕ) (p : ℚ) : ℤ :=
  min (javaIntCast (p * (numBins : ℚ))) ((numBins : ℤ) - 1)

/-- One entry of the calibration curve produced by
`computeReliabilityBins`. -/
structure CalibrationBin where
  binLower : ℚ
  binUpper : ℚ
  meanPredictedProbability : ℚ
  actualFractionOfPositives : ℚ
  sampleCount : ℕ
deriving DecidableEq, Repr

/-- `computeReliabilityBins`: the logs are grouped by reliability-bin
index over the pre-created bins 0 .. numBins−1 (in ascending key order, as
the `TreeMap` iterates); empty bins are skipped, and each nonempty bin
reports its mean predicted probability, fraction of positive outcomes and
sample count. -/
def computeReliabilityBins (logs : List CalibrationLog) (numBins : ℕ) :
    List CalibrationBin :=
  (List.range numBins).filterMap (fun i =>
    let binLogs := logs.filter (fun l => binIndex numBins l.predictedProbability = (i : ℤ))
    if binLogs.isEmpty then none
    else
      some
        { binLower := (i : ℚ) / (numBins : ℚ)
          binUpper := ((i : ℚ) + 1) / (numBins : ℚ)
          meanPredictedProbability :=
            (binLogs.map (fun l => l.predictedProbability)).sum / (binLogs.length : ℚ)
          actualFractionOfPositives :=
            ((binLogs.map (fun l => l.actualOutcome)).sum : ℚ) / (binLogs.length : ℚ)
          sampleCount := binLogs.length })

/-- `calculateBrierScore`: the mean squared difference between predicted
probability and actual outcome. -/
def calculateBrierScore (logs : List CalibrationLog) : ℚ :=
  (logs.map (fun l => (l.predictedProbability - (l.actualOutcome : ℚ)) ^ 2)).sum /
    (logs.length : ℚ)

/-- `calculateECE`: the sample-weighted mean absolute gap between each
bin's mean predicted probability and its fraction of positives. -/
def calculateECE (bins : List CalibrationBin) (totalSamples : ℕ) : ℚ :=
  (bins.map (fun b =>
    ((b.sampleCount : ℚ) / (totalSamples : ℚ)) *
      |b.meanPredictedProbability - b.actualFractionOfPositives|)).sum

/-- `calculateOverconfidence`: the mean of
`meanPredictedProbability − actualFractionOfPositives` over the bins with
mean predicted probability above 0.5; 0 when there are none. -/
def calculateOverconfidence (bins : List CalibrationBin) : ℚ :=
  let confident := bins.filter (fun b => (1/2 : ℚ) < b.meanPredictedProbability)
  if confident.isEmpty then 0
  else
    (confident.map (fun b =>
      b.meanPredictedProbability - b.actualFractionOfPositives)).sum /
      (confident.length : ℚ)

/-- The fields of `CalibrationMetricsDto` computed by the service. -/
structure CalibrationMetrics where
  brierScore : ℚ
  expectedCalibrationError : ℚ
  overconfidenceIndex : ℚ
  calibrationCurveData : List CalibrationBin
deriving DecidableEq, Repr

/-- `getCalibrationMetrics` on the logs returned for the 30-day range:
with no logs it returns the zeroed metrics with an empty calibration
curve, otherwise the Brier score, the 10 reliability bins, the expected
calibration error and the overconfidence index. -/
def getCalibrationMetrics (logs : List CalibrationLog) : CalibrationMetrics :=
  if logs.isEmpty then
    { brierScore := 0, expectedCalibrationError := 0, overconfidenceIndex := 0,
      calibrationCurveData := [] }
  else
    let bins := computeReliabilityBins logs 10
    { brierScore := calculateBrierScore logs
      expectedCalibrationError := calculateECE bins logs.length
      overconfidenceIndex := calculateOverconfidence bins
      calibrationCurveData := bins }

/-! ## Difficulty clamp lemmas -/

lemma clamp_one_le (x : ℤ) : 1 ≤ min 5 (max 1 x) :=
  le_min (by norm_num) (le_max_left 1 x)

lemma clamp_le_five (x : ℤ) : min 5 (max 1 x) ≤ 5 :=
  min_le_left 5 _

lemma clamp_eq_self {x : ℤ} (h1 : 1 ≤ x) (h5 : x ≤ 5) : min 5 (max 1 x) = x := by
  rw [max_eq_right h1, min_eq_right h5]

lemma sessionTurn_difficulty (st : SessionState) (t : TurnInput) :
    (sessionTurn st t).currentDifficulty
      = min 5 (max 1 (st.currentDifficulty +
          gateDecision (preDecision st t.mood t.confidence) t.success)) := rfl

lemma sessionTurn_lockedTurns (st : SessionState) (t : TurnInput) :
    (sessionTurn st t).difficultyLockedTurns
      = if gateDecision (preDecision st t.mood t.confidence) t.success ≠ 0 then 2
        else st.difficultyLockedTurns - 1 := rfl

lemma sessionTurn_difficulty_bounds (st : SessionState) (t : TurnInput) :
    1 ≤ (sessionTurn st t).currentDifficulty ∧
      (sessionTurn st t).currentDifficulty ≤ 5 := by
  rw [sessionTurn_difficulty]
  exact ⟨clamp_one_le _, clamp_le_five _⟩

lemma gateDecision_of_locked {st : SessionState} (success : Bool)
    (h : 0 < st.difficultyLockedTurns) : gateDecision st success = 0 := by
  unfold gateDecision
  rw [if_pos h]

lemma sessionTurn_of_locked {st : SessionState} {t : TurnInput}
    (h1 : 1 ≤ st.currentDifficulty) (h5 : st.currentDifficulty ≤ 5)
    (hl : 0 < st.difficultyLockedTurns) :
    (sessionTurn st t).currentDifficulty = st.currentDifficulty ∧
      (sessionTurn st t).difficultyLockedTurns = st.difficultyLockedTurns - 1 := by
  have hg : gateDecision (preDecision st t.mood t.confidence) t.success = 0 :=
    gateDecision_of_locked t.success hl
  constructor
  · rw [sessionTurn_difficulty, hg, add_zero, clamp_eq_self h1 h5]
  · rw [sessionTurn_lockedTurns, hg]
    simp

lemma sessionTurn_change_locked {st : SessionState} {t : TurnInput}
    (h1 : 1 ≤ st.currentDifficulty) (h5 : st.currentDifficulty ≤ 5)
    (hc : (sessionTurn st t).currentDifficulty ≠ st.currentDifficulty) :
    (sessionTurn st t).difficultyLockedTurns = 2 := by
  by_cases hg : gateDecision (preDecision st t.mood t.confidence) t.success = 0
  · exact absurd (by rw [sessionTurn_difficulty, hg, add_zero, clamp_eq_self h1 h5]) hc
  · rw [sessionTurn_lockedTurns, if_pos hg]

lemma sessionTrace_cons (st : SessionState) (t : TurnInput) (rest : List TurnInput) :
    sessionTrace st (t :: rest)
      = sessionTurn st t :: sessionTrace (sessionTurn st t) rest := rfl

lemma changeFlags_cons (st : SessionState) (t : TurnInput) (rest : List TurnInput) :
    changeFlags st (t :: rest)
      = decide ((sessionTurn st t).currentDifficulty ≠ st.currentDifficulty)
        :: changeFlags (sessionTurn st t) rest := rfl

lemma sessionTrace_mem_bounds :
    ∀ (inputs : List TurnInput) (st s : SessionState), s ∈ sessionTrace st inputs →
      1 ≤ s.currentDifficulty ∧ s.currentDifficulty ≤ 5 := by
  intro inputs
  induction inputs with
  | nil => intro st s hs; simp [sessionTrace] at hs
  | cons t rest ih =>
    intro st s hs
    rw [sessionTrace_cons] at hs
    rcases List.mem_cons.mp hs with h | h
    · subst h; exact sessionTurn_difficulty_bounds st t
    · exact ih _ s h

lemma changeFlags_locked_not_true :
    ∀ (inputs : List TurnInput) (st : SessionState) (k : ℕ),
      1 ≤ st.currentDifficulty → st.currentDifficulty ≤ 5 →
      k < st.difficultyLockedTurns →
      (changeFlags st inputs)[k]? ≠ some true := by
  intro inputs
  induction inputs with
  | nil => intro st k _ _ _; simp [changeFlags]
  | cons t rest ih =>
    intro st k h1 h5 hk
    have hl : 0 < st.difficultyLockedTurns := Nat.lt_of_le_of_lt (Nat.zero_le k) hk
    obtain ⟨hd, hlock⟩ := sessionTurn_of_locked (t := t) h1 h5 hl
    rw [changeFlags_cons]
    cases k with
    | zero => simp [hd]
    | succ k =>
      rw [List.getElem?_cons_succ]
      apply ih
      · rw [hd]; exact h1
      · rw [hd]; exact h5
      · omega

lemma changeFlags_window :
    ∀ (inputs : List TurnInput) (st : SessionState) (i j : ℕ),
      1 ≤ st.currentDifficulty → st.currentDifficulty ≤ 5 → i < j →
      (changeFlags st inputs)[i]? = some true →
      (changeFlags st inputs)[j]? = some true →
      i + 3 ≤ j := by
  intro inputs
  induction inputs with
  | nil => intro st i j _ _ _ hi _; simp [changeFlags] at hi
  | cons t rest ih =>
    intro st i j h1 h5 hij hi hj
    rw [changeFlags_cons] at hi hj
    obtain ⟨j, rfl⟩ : ∃ j', j = j' + 1 := ⟨j - 1, by omega⟩
    rw [List.getElem?_cons_succ] at hj
    cases i with
    | zero =>
      rw [List.getElem?_cons_zero] at hi
      have hchange : (sessionTurn st t).currentDifficulty ≠ st.currentDifficulty := by
        simpa using hi
      have hlock := sessionTurn_change_locked h1 h5 hchange
      have hb := sessionTurn_difficulty_bounds st t
      by_contra hlt
      exact changeFlags_locked_not_true rest _ j hb.1 hb.2 (by omega) hj
    | succ i =>
      rw [List.getElem?_cons_succ] at hi
      have hb := sessionTurn_difficulty_bounds st t
      have := ih _ i j hb.1 hb.2 (by omega) hi hj
      omega

/-- C1: for every session and every sequence of turn inputs, of any length
and any signal noise, the session's current difficulty stays an integer in
[1,5]: the pre-decision update never touches the difficulty, every full
turn (pre-decision, gate decision, post-response) lands in [1,5], and so
does every state along the trace of any turn sequence. -/
theorem difficulty_within_bounds :
    (∀ (st : SessionState) (m : Mood) (c : ℚ),
      (preDecision st m c).currentDifficulty = st.currentDifficulty) ∧
    (∀ (st : SessionState) (t : TurnInput),
      1 ≤ (sessionTurn st t).currentDifficulty ∧
        (sessionTurn st t).currentDifficulty ≤ 5) ∧
    (∀ (st : SessionState) (inputs : List TurnInput) (s : SessionState),
      s ∈ sessionTrace st inputs →
      1 ≤ s.currentDifficulty ∧ s.currentDifficulty ≤ 5) :=
  ⟨fun _ _ _ => rfl, sessionTurn_difficulty_bounds,
    fun st inputs s h => sessionTrace_mem_bounds inputs st s h⟩

/-- Witness for C1: discharging the trace-membership hypothesis at a state
of the concrete trace of two frustrated turns from difficulty 3. -/
theorem difficulty_within_bounds_witness :
    1 ≤ (SessionState.mk 2 2 0 2 2 Mood.frustrated (13/20)).currentDifficulty ∧
      (SessionState.mk 2 2 0 2 2 Mood.frustrated (13/20)).currentDifficulty ≤ 5 :=
  difficulty_within_bounds.2.2 (SessionState.mk 3 0 0 0 0 Mood.neutral 0)
    [TurnInput.mk Mood.frustrated (13/20) false,
     TurnInput.mk Mood.frustrated (13/20) false]
    (SessionState.mk 2 2 0 2 2 Mood.frustrated (13/20))
    (by norm_num [sessionTrace, sessionTurn, preDecision, gateDecision, postResponse,
      Mood.isStable])

/-- C2: the DifficultyGate never changes difficulty twice within any window
of 3 consecutive turns: a turn that actually changes the difficulty leaves
the gate locked for 2 turns, while locked every turn decrements the lock
counter and leaves the difficulty untouched regardless of signals, and two
actual difficulty changes along any turn sequence are at least 3 turns
apart. -/
theorem difficulty_lock_three_turn_window :
    (∀ (st : SessionState) (t : TurnInput),
      1 ≤ st.currentDifficulty → st.currentDifficulty ≤ 5 →
      (sessionTurn st t).currentDifficulty ≠ st.currentDifficulty →
      (sessionTurn st t).difficultyLockedTurns = 2) ∧
    (∀ (st : SessionState) (t : TurnInput),
      1 ≤ st.currentDifficulty → st.currentDifficulty ≤ 5 →
      0 < st.difficultyLockedTurns →
      (sessionTurn st t).currentDifficulty = st.currentDifficulty ∧
        (sessionTurn st t).difficultyLockedTurns = st.difficultyLockedTurns - 1) ∧
    (∀ (st : SessionState) (inputs : List TurnInput) (i j : ℕ),
      1 ≤ st.currentDifficulty → st.currentDifficulty ≤ 5 → i < j →
      (changeFlags st inputs)[i]? = some true →
      (changeFlags st inputs)[j]? = some true →
      i + 3 ≤ j) :=
  ⟨fun _ _ h1 h5 hc => sessionTurn_change_locked h1 h5 hc,
   fun _ _ h1 h5 hl => sessionTurn_of_locked h1 h5 hl,
   fun st inputs => changeFlags_window inputs st⟩

/-- Witness for C2: five frustrated turns from difficulty 3 change the
difficulty at turn indices 1 and 4 (3 turns apart), a changing turn locks
the gate for 2 turns, and a locked turn decrements the lock. -/
theorem difficulty_lock_three_turn_window_witness :
    (sessionTurn (SessionState.mk 3 1 0 0 1 Mood.frustrated (13/20))
        (TurnInput.mk Mood.frustrated (13/20) false)).difficultyLockedTurns = 2 ∧
    ((sessionTurn (SessionState.mk 2 2 0 2 2 Mood.frustrated (13/20))
        (TurnInput.mk Mood.frustrated (13/20) false)).currentDifficulty = 2 ∧
      (sessionTurn (SessionState.mk 2 2 0 2 2 Mood.frustrated (13/20))
        (TurnInput.mk Mood.frustrated (13/20) false)).difficultyLockedTurns = 1) ∧
    1 + 3 ≤ 4 := by
  refine ⟨?_, ?_, ?_⟩
  · exact difficulty_lock_three_turn_window.1 _ _ (by norm_num) (by norm_num)
      (by norm_num [sessionTurn, preDecision, gateDecision, postResponse])
  · exact difficulty_lock_three_turn_window.2.1 _ _ (by norm_num) (by norm_num)
      (by norm_num)
  · exact difficulty_lock_three_turn_window.2.2
      (SessionState.mk 3 0 0 0 0 Mood.neutral 0)
      (List.replicate 5 (TurnInput.mk Mood.frustrated (13/20) false)) 1 4
      (by norm_num) (by norm_num) (by norm_num)
      (by norm_num [changeFlags, sessionTurn, preDecision, gateDecision, postResponse,
        List.replicate])
      (by norm_num [changeFlags, sessionTurn, preDecision, gateDecision, postResponse,
        List.replicate])

/-- C3: from an unlocked gate, a frustration streak of at least 2 with mood
confidence at least 0.6 yields delta −1, difficulty floored at 1, and a
2-turn lock; in the concrete scenario (difficulty 3, two frustrated turns
at confidence 0.65, then a third frustrated turn during the lock) the
deltas are 0, −1, 0 and the (difficulty, lock) trace is
(3,0), (2,2), (2,1). -/
theorem gate_decrease_rule_and_scenario :
    (∀ (st : SessionState) (success : Bool),
      st.difficultyLockedTurns = 0 → 2 ≤ st.consecutiveFrustration →
      (3/5 : ℚ) ≤ st.moodConfidence → st.currentDifficulty ≤ 5 →
      gateDecision st success = -1 ∧
      (postResponse st (-1)).currentDifficulty = max 1 (st.currentDifficulty - 1) ∧
      (postResponse st (-1)).difficultyLockedTurns = 2) ∧
    turnDeltas (SessionState.mk 3 0 0 0 0 Mood.neutral 0)
      (List.replicate 3 (TurnInput.mk Mood.frustrated (13/20) false)) = [0, -1, 0] ∧
    (sessionTrace (SessionState.mk 3 0 0 0 0 Mood.neutral 0)
      (List.replicate 3 (TurnInput.mk Mood.frustrated (13/20) false))).map
        (fun s => (s.currentDifficulty, s.difficultyLockedTurns))
      = [(3, 0), (2, 2), (2, 1)] := by
  refine ⟨?_,
    by norm_num [turnDeltas, preDecision, gateDecision, postResponse, List.replicate],
    by norm_num [sessionTrace, sessionTurn, preDecision, gateDecision, postResponse,
      List.replicate]⟩
  intro st success hlock hfr hconf h5
  have hg : gateDecision st success = -1 := by
    unfold gateDecision
    rw [if_neg (by omega), if_pos ⟨hfr, hconf⟩]
  refine ⟨hg, ?_, ?_⟩
  · show min 5 (max 1 (st.currentDifficulty + (-1))) = _
    have harg : st.currentDifficulty + (-1) = st.currentDifficulty - 1 := by ring
    rw [harg, min_eq_right (max_le (by norm_num) (by omega))]
  · show (if (-1 : ℤ) ≠ 0 then 2 else st.difficultyLockedTurns - 1) = 2
    norm_num

/-- Witness for C3: the decrease rule applied at the concrete state with
difficulty 3, frustration streak 2, confidence 0.65 and an unlocked
gate. -/
theorem gate_decrease_rule_and_scenario_witness :
    gateDecision (SessionState.mk 3 2 0 0 2 Mood.frustrated (13/20)) false = -1 ∧
    (postResponse (SessionState.mk 3 2 0 0 2 Mood.frustrated (13/20))
        (-1)).currentDifficulty = max 1 ((3 : ℤ) - 1) ∧
    (postResponse (SessionState.mk 3 2 0 0 2 Mood.frustrated (13/20))
        (-1)).difficultyLockedTurns = 2 :=
  gate_decrease_rule_and_scenario.1 (SessionState.mk 3 2 0 0 2 Mood.frustrated (13/20))
    false rfl (by norm_num) (by norm_num) (by norm_num)

/-! ## Reinforcement adaptation lemmas -/

lemma checkCandidate_of_switched (stats : ReinforcementStyle → StyleStats)
    (active : ReinforcementStyle) (s : ReinforcementStyle)
    (c : ReinforcementStyle) :
    checkCandidate stats active (s, true) c = (s, true) := by
  unfold checkCandidate
  rw [if_pos rfl]

lemma foldl_checkCandidate_of_switched (stats : ReinforcementStyle → StyleStats)
    (active : ReinforcementStyle) (s : ReinforcementStyle) :
    ∀ l : List ReinforcementStyle,
      l.foldl (checkCandidate stats active) (s, true) = (s, true) := by
  intro l
  induction l with
  | nil => rfl
  | cons c rest ih => rw [List.foldl_cons, checkCandidate_of_switched]; exact ih

/-- The invariant of the session-end candidate fold: the selected style is
either still the active one, or it satisfies the promotion conditions. -/
lemma foldl_checkCandidate_invariant (stats : ReinforcementStyle → StyleStats)
    (active : ReinforcementStyle) :
    ∀ (l : List ReinforcementStyle) (acc : ReinforcementStyle × Bool),
      (acc.1 = active ∨
        (5 ≤ (stats acc.1).events ∧
          successRate (stats active) + 3/20 ≤ successRate (stats acc.1))) →
      ((l.foldl (checkCandidate stats active) acc).1 = active ∨
        (5 ≤ (stats (l.foldl (checkCandidate stats active) acc).1).events ∧
          successRate (stats active) + 3/20
            ≤ successRate (stats (l.foldl (checkCandidate stats active) acc).1))) := by
  intro l
  induction l with
  | nil => intro acc h; exact h
  | cons c rest ih =>
    intro acc h
    rw [List.foldl_cons]
    apply ih
    unfold checkCandidate
    split_ifs with h1 h2
    · exact h
    · right
      simp only [eligibleSwitch, Bool.and_eq_true, decide_eq_true_eq] at h2
      exact h2
    · exact h

/-- C4: the reinforcement style changes at most once per session (once a
switch has occurred all subsequent candidate checks are ignored), and a
style promoted at session end has at least 5 recorded events this session
and a success rate at least 15 percentage points above the active
style's. -/
theorem reinforcement_switch_discipline :
    (∀ (stats : ReinforcementStyle → StyleStats) (active s : ReinforcementStyle)
        (l : List ReinforcementStyle),
      l.foldl (checkCandidate stats active) (s, true) = (s, true)) ∧
    (∀ (stats : ReinforcementStyle → StyleStats) (active : ReinforcementStyle)
        (cands : List ReinforcementStyle),
      (sessionEndAdapt stats active cands).1 ≠ active →
      5 ≤ (stats (sessionEndAdapt stats active cands).1).events ∧
        successRate (stats active) + 3/20
          ≤ successRate (stats (sessionEndAdapt stats active cands).1)) := by
  constructor
  · exact fun stats active s l => foldl_checkCandidate_of_switched stats active s l
  · intro stats active cands hne
    rcases foldl_checkCandidate_invariant stats active cands (active, false)
      (Or.inl rfl) with h | h
    · exact absurd h hne
    · exact h

/-- Witness for C4: the documented scenario (PRAISE_BASED 6 events /
5 successes against active CALM_VALIDATION 6 events / 3 successes)
switches to PRAISE_BASED, which has at least 5 events and at least a
15-point success-rate advantage; and a later candidate check after the
switch is ignored. -/
theorem reinforcement_switch_discipline_witness :
    ([ReinforcementStyle.achievementBased].foldl
        (checkCandidate scenarioStats ReinforcementStyle.calmValidation)
        (ReinforcementStyle.praiseBased, true)
      = (ReinforcementStyle.praiseBased, true)) ∧
    (5 ≤ (scenarioStats (sessionEndAdapt scenarioStats
          ReinforcementStyle.calmValidation
          [ReinforcementStyle.praiseBased, ReinforcementStyle.achievementBased,
            ReinforcementStyle.playfulEncouragement]).1).events ∧
      successRate (scenarioStats ReinforcementStyle.calmValidation) + 3/20
        ≤ successRate (scenarioStats (sessionEndAdapt scenarioStats
            ReinforcementStyle.calmValidation
            [ReinforcementStyle.praiseBased, ReinforcementStyle.achievementBased,
              ReinforcementStyle.playfulEncouragement]).1)) := by
  constructor
  · exact reinforcement_switch_discipline.1 scenarioStats
      ReinforcementStyle.calmValidation ReinforcementStyle.praiseBased
      [ReinforcementStyle.achievementBased]
  · exact reinforcement_switch_discipline.2 scenarioStats
      ReinforcementStyle.calmValidation
      [ReinforcementStyle.praiseBased, ReinforcementStyle.achievementBased,
        ReinforcementStyle.playfulEncouragement]
      (by
        norm_num [sessionEndAdapt, checkCandidate, eligibleSwitch, scenarioStats,
          successRate]
        decide)

/-! ## Emotional decay lemmas -/

lemma elapsedDays_add (t0 n : ℕ) : elapsedDays t0 (t0 + 24 * n) = n := by
  unfold elapsedDays
  rw [Nat.add_sub_cancel_left]
  exact Nat.mul_div_cancel_left n (by norm_num)

lemma readMetrics_at_periods (m : EmotionalMetrics) (n : ℕ) :
    readMetrics m (m.lastDecayTimestamp + 24 * n)
      = { frustrationCount := m.frustrationCount * decayFactor ^ n
          recoveryCount := m.recoveryCount * decayFactor ^ n
          stabilityCount := m.stabilityCount * decayFactor ^ n
          lastDecayTimestamp := m.lastDecayTimestamp + 24 * n } := by
  unfold readMetrics
  rw [elapsedDays_add]

lemma decayFactor_pow_le_one (n : ℕ) : decayFactor ^ n ≤ 1 :=
  pow_le_one₀ (by norm_num [decayFactor]) (by norm_num [decayFactor])

lemma decayFactor_pow_nonneg (n : ℕ) : 0 ≤ decayFactor ^ n :=
  pow_nonneg (by norm_num [decayFactor]) n

/-- C5: after n elapsed 24-hour periods without access, the next read of
the emotional counters returns the stored values multiplied by 0.95^n, the
decay being applied lazily at the read from the stored decay timestamp;
the decayed value of a nonnegative counter stays nonnegative and never
exceeds the stored value, and two successive lazy reads compound exactly
as a single read over the summed periods. -/
theorem emotional_decay_lazy_compound :
    ∀ (m : EmotionalMetrics) (n : ℕ),
      ((readMetrics m (m.lastDecayTimestamp + 24 * n)).frustrationCount
          = m.frustrationCount * decayFactor ^ n ∧
        (readMetrics m (m.lastDecayTimestamp + 24 * n)).recoveryCount
          = m.recoveryCount * decayFactor ^ n ∧
        (readMetrics m (m.lastDecayTimestamp + 24 * n)).stabilityCount
          = m.stabilityCount * decayFactor ^ n) ∧
      (0 ≤ m.frustrationCount →
        0 ≤ (readMetrics m (m.lastDecayTimestamp + 24 * n)).frustrationCount ∧
          (readMetrics m (m.lastDecayTimestamp + 24 * n)).frustrationCount
            ≤ m.frustrationCount) ∧
      ∀ b : ℕ,
        (readMetrics (readMetrics m (m.lastDecayTimestamp + 24 * n))
            (m.lastDecayTimestamp + 24 * n + 24 * b)).frustrationCount
          = m.frustrationCount * decayFactor ^ (n + b) := by
  intro m n
  rw [readMetrics_at_periods]
  refine ⟨⟨rfl, rfl, rfl⟩, ?_, ?_⟩
  · intro h0
    exact ⟨mul_nonneg h0 (decayFactor_pow_nonneg n),
      mul_le_of_le_one_right h0 (decayFactor_pow_le_one n)⟩
  · intro b
    rw [show m.lastDecayTimestamp + 24 * n + 24 * b
        = ({ frustrationCount := m.frustrationCount * decayFactor ^ n
             recoveryCount := m.recoveryCount * decayFactor ^ n
             stabilityCount := m.stabilityCount * decayFactor ^ n
             lastDecayTimestamp := m.lastDecayTimestamp + 24 * n } :
            EmotionalMetrics).lastDecayTimestamp + 24 * b from rfl,
      readMetrics_at_periods]
    show m.frustrationCount * decayFactor ^ n * decayFactor ^ b = _
    rw [mul_assoc, ← pow_add]

/-- Witness for C5: the decay applied at a concrete metric record (counter
10, timestamp hour 100) over 3 elapsed periods and then 2 more. -/
theorem emotional_decay_lazy_compound_witness :
    ((readMetrics (EmotionalMetrics.mk 10 4 2 100) (100 + 24 * 3)).frustrationCount
        = 10 * decayFactor ^ 3 ∧
      (readMetrics (EmotionalMetrics.mk 10 4 2 100) (100 + 24 * 3)).recoveryCount
        = 4 * decayFactor ^ 3 ∧
      (readMetrics (EmotionalMetrics.mk 10 4 2 100) (100 + 24 * 3)).stabilityCount
        = 2 * decayFactor ^ 3) ∧
    (0 ≤ (readMetrics (EmotionalMetrics.mk 10 4 2 100) (100 + 24 * 3)).frustrationCount ∧
      (readMetrics (EmotionalMetrics.mk 10 4 2 100) (100 + 24 * 3)).frustrationCount
        ≤ 10) ∧
    (readMetrics (readMetrics (EmotionalMetrics.mk 10 4 2 100) (100 + 24 * 3))
        (100 + 24 * 3 + 24 * 2)).frustrationCount = 10 * decayFactor ^ (3 + 2) := by
  have h := emotional_decay_lazy_compound (EmotionalMetrics.mk 10 4 2 100) 3
  exact ⟨h.1, h.2.1 (by norm_num), h.2.2 2⟩

/-! ## MoodConsensus lemmas -/

lemma consensusStep_window (st : ConsensusState) (r : MoodReading) :
    (consensusStep st r).window = (r :: st.window).take 3 := by
  unfold consensusStep
  split_ifs <;> rfl

lemma consensusStep_mood_change (st : ConsensusState) (r : MoodReading)
    (hne : (consensusStep st r).mood ≠ st.mood) :
    (consensusStep st r).mood = r.mood ∧
      2 ≤ ((r :: st.window).take 3).countP (fun x => x.mood = r.mood) := by
  unfold consensusStep at hne ⊢
  by_cases h1 : r.mood = st.mood
  · rw [if_pos h1] at hne
    exact absurd rfl hne
  · rw [if_neg h1] at hne ⊢
    by_cases h2 : r.mood = Mood.neutral
    · rw [if_pos h2] at hne
      by_cases h3 : 1 ≤ st.consecutiveNeutral
      · rw [if_pos h3] at hne
        exact absurd rfl hne
      · rw [if_neg h3] at hne
        exact absurd rfl hne
    · rw [if_neg h2] at hne ⊢
      by_cases h4 : 2 ≤ ((r :: st.window).take 3).countP (fun x => x.mood = r.mood)
      · rw [if_pos h4]
        exact ⟨rfl, h4⟩
      · rw [if_neg h4] at hne
        exact absurd rfl hne

lemma consensusStep_neutral_decay (st : ConsensusState) (r : MoodReading)
    (hn : r.mood = Mood.neutral) (hs : st.mood ≠ Mood.neutral)
    (hc : 1 ≤ st.consecutiveNeutral) :
    (consensusStep st r).mood = st.mood ∧
      (consensusStep st r).confidence = r.confidence * (4/5) := by
  have h1 : ¬ r.mood = st.mood := fun h => hs (h.symm.trans hn)
  unfold consensusStep
  rw [if_neg h1, if_pos hn, if_pos hc]
  exact ⟨rfl, rfl⟩

/-- C6 counterexample: in the documented scenario
(frustrated 0.7, frustrated 0.8, neutral 0.9) the consensus reports
confidence 0.8 on turn 3, not 0.9 × 0.8 = 0.72: a single neutral reading
does not trigger the ×0.8 decay, which requires two consecutive neutral
readings. -/
theorem mood_consensus_scenario_refuted :
    (consensusRun initialConsensus
        [MoodReading.mk Mood.frustrated (7/10), MoodReading.mk Mood.frustrated (4/5),
          MoodReading.mk Mood.neutral (9/10)]).confidence = 4/5 ∧
      ¬ (consensusRun initialConsensus
        [MoodReading.mk Mood.frustrated (7/10), MoodReading.mk Mood.frustrated (4/5),
          MoodReading.mk Mood.neutral (9/10)]).confidence = 18/25 := by
  norm_num +decide [consensusRun, consensusStep, initialConsensus]

/-- C6 (amended): MoodConsensus retains exactly the last 3 fused readings
and accepts a reported mood change only if the new mood appears in at
least 2 of those 3 readings; from the second consecutive neutral reading
on, the reported confidence is the reading's confidence multiplied by 0.8
instead of the established mood being reset.  In the scenario
frustrated/frustrated/neutral at confidences [0.7, 0.8, 0.9] the
consensus reports frustrated on turn 2; on turn 3 the mood remains
frustrated with confidence 0.8 unchanged (one neutral reading does not
decay), and a fourth, second-consecutive neutral reading at confidence
0.9 yields the decayed confidence 0.9 × 0.8 = 0.72. -/
theorem mood_consensus_debounce_rules :
    (∀ (st : ConsensusState) (r : MoodReading),
      (consensusStep st r).window = (r :: st.window).take 3) ∧
    (∀ (st : ConsensusState) (r : MoodReading),
      (consensusStep st r).mood ≠ st.mood →
      (consensusStep st r).mood = r.mood ∧
        2 ≤ ((r :: st.window).take 3).countP (fun x => x.mood = r.mood)) ∧
    (∀ (st : ConsensusState) (r : MoodReading),
      r.mood = Mood.neutral → st.mood ≠ Mood.neutral → 1 ≤ st.consecutiveNeutral →
      (consensusStep st r).mood = st.mood ∧
        (consensusStep st r).confidence = r.confidence * (4/5)) ∧
    (consensusRun initialConsensus
        [MoodReading.mk Mood.frustrated (7/10),
          MoodReading.mk Mood.frustrated (4/5)]).mood = Mood.frustrated ∧
    ((consensusRun initialConsensus
        [MoodReading.mk Mood.frustrated (7/10), MoodReading.mk Mood.frustrated (4/5),
          MoodReading.mk Mood.neutral (9/10)]).mood = Mood.frustrated ∧
      (consensusRun initialConsensus
        [MoodReading.mk Mood.frustrated (7/10), MoodReading.mk Mood.frustrated (4/5),
          MoodReading.mk Mood.neutral (9/10)]).confidence = 4/5) ∧
    (consensusRun initialConsensus
        [MoodReading.mk Mood.frustrated (7/10), MoodReading.mk Mood.frustrated (4/5),
          MoodReading.mk Mood.neutral (9/10),
          MoodReading.mk Mood.neutral (9/10)]).confidence = 9/10 * (4/5) := by
  refine ⟨consensusStep_window, consensusStep_mood_change, consensusStep_neutral_decay,
    ?_, ?_, ?_⟩ <;>
    norm_num +decide [consensusRun, consensusStep, initialConsensus]

/-- Witness for C6: the mood-change and neutral-decay rules applied at
concrete consensus states. -/
theorem mood_consensus_debounce_rules_witness :
    ((consensusStep
        (ConsensusState.mk [MoodReading.mk Mood.frustrated (7/10)] Mood.neutral 0 0)
        (MoodReading.mk Mood.frustrated (4/5))).mood = Mood.frustrated ∧
      2 ≤ ((MoodReading.mk Mood.frustrated (4/5) ::
          [MoodReading.mk Mood.frustrated (7/10)]).take 3).countP
          (fun x => x.mood = Mood.frustrated)) ∧
    ((consensusStep
        (ConsensusState.mk
          [MoodReading.mk Mood.neutral (9/10), MoodReading.mk Mood.frustrated (4/5),
            MoodReading.mk Mood.frustrated (7/10)] Mood.frustrated (4/5) 1)
        (MoodReading.mk Mood.neutral (9/10))).mood = Mood.frustrated ∧
      (consensusStep
        (ConsensusState.mk
          [MoodReading.mk Mood.neutral (9/10), MoodReading.mk Mood.frustrated (4/5),
            MoodReading.mk Mood.frustrated (7/10)] Mood.frustrated (4/5) 1)
        (MoodReading.mk Mood.neutral (9/10))).confidence = (9/10) * (4/5)) := by
  constructor
  · exact mood_consensus_debounce_rules.2.1 _ _
      (by norm_num +decide [consensusStep])
  · exact mood_consensus_debounce_rules.2.2.1 _ _ rfl (by decide) (by norm_num)

/-- C7: SignalFusion combines the text and audio confidences with weights
0.6/0.4, switching to 0.35/0.65 exactly when the text confidence is below
0.2, and the output confidence is the weighted sum clipped to [0,1]. -/
theorem signal_fusion_weights :
    ∀ textConf audioConf : ℚ,
      (textConf < 1/5 →
        fuseConfidence textConf audioConf
          = min 1 (max 0 ((7/20) * textConf + (13/20) * audioConf))) ∧
      ((1/5 : ℚ) ≤ textConf →
        fuseConfidence textConf audioConf
          = min 1 (max 0 ((3/5) * textConf + (2/5) * audioConf))) ∧
      0 ≤ fuseConfidence textConf audioConf ∧
        fuseConfidence textConf audioConf ≤ 1 := by
  intro textConf audioConf
  unfold fuseConfidence
  by_cases h : textConf < 1/5
  · rw [if_pos h, if_pos h]
    exact ⟨fun _ => rfl, fun h2 => absurd h (not_lt.mpr h2),
      le_min zero_le_one (le_max_left 0 _), min_le_left 1 _⟩
  · rw [if_neg h, if_neg h]
    exact ⟨fun h1 => absurd h1 h, fun _ => rfl,
      le_min zero_le_one (le_max_left 0 _), min_le_left 1 _⟩

/-- Witness for C7: the fusion evaluated on both sides of the 0.2
crossover. -/
theorem signal_fusion_weights_witness :
    (fuseConfidence (1/10) (1/2)
        = min 1 (max 0 ((7/20) * (1/10) + (13/20) * (1/2))) ∧
      fuseConfidence (1/2) (1/2)
        = min 1 (max 0 ((3/5) * (1/2) + (2/5) * (1/2)))) ∧
    (0 ≤ fuseConfidence (1/10) (1/2) ∧ fuseConfidence (1/10) (1/2) ≤ 1) := by
  refine ⟨⟨?_, ?_⟩, ?_⟩
  · exact (signal_fusion_weights (1/10) (1/2)).1 (by norm_num)
  · exact (signal_fusion_weights (1/2) (1/2)).2.1 (by norm_num)
  · exact (signal_fusion_weights (1/10) (1/2)).2.2

/-- C8: if the persistence read fails at session start, the engine runs
the session from the hardcoded safe defaults — difficulty 1, style
CALM_VALIDATION, empty preferences — flags the session as degraded, and
attempts no persistence write at session end. -/
theorem degraded_session_defaults :
    (initSession none).baseline.difficulty = 1 ∧
    (initSession none).baseline.style = ReinforcementStyle.calmValidation ∧
    (initSession none).baseline.preferences = [] ∧
    (initSession none).degraded = true ∧
    ∀ delta : AggregateDelta, sessionEndWrite (initSession none) delta = none :=
  ⟨rfl, rfl, rfl, rfl, fun _ => rfl⟩

/-! ## Predictive analytics lemmas -/

lemma ewmaFold_nonneg :
    ∀ (scores : List ℚ) (init : ℚ), 0 ≤ init → (∀ s ∈ scores, 0 ≤ s) →
      0 ≤ ewmaFold init scores := by
  intro scores
  induction scores with
  | nil => intro init h0 _; exact h0
  | cons s rest ih =>
    intro init h0 hmem
    rw [show ewmaFold init (s :: rest)
        = ewmaFold ((3/10) * s + (7/10) * init) rest from rfl]
    apply ih
    · have hs : 0 ≤ s := hmem s (List.mem_cons_self s rest)
      positivity
    · intro x hx
      exact hmem x (List.mem_cons_of_mem s hx)

lemma calculateEWMAFrustration_bounds (metrics : List EmotionalMetric)
    (h : ∀ e ∈ metrics, 0 ≤ e.frustrationScore) :
    0 ≤ calculateEWMAFrustration metrics ∧ calculateEWMAFrustration metrics ≤ 1 := by
  rcases metrics with _ | ⟨m, _ | ⟨m2, rest⟩⟩
  · simp [calculateEWMAFrustration]
  · simp [calculateEWMAFrustration]
  · rw [show calculateEWMAFrustration (m :: m2 :: rest)
        = min 1 (ewmaFold m.frustrationScore
            ((m2 :: rest).map (fun x => x.frustrationScore)) / 10) from rfl]
    have hnn : 0 ≤ ewmaFold m.frustrationScore
        ((m2 :: rest).map (fun x => x.frustrationScore)) := by
      apply ewmaFold_nonneg
      · exact h m (List.mem_cons_self m (m2 :: rest))
      · intro s hs
        rcases List.mem_map.mp hs with ⟨e, he, rfl⟩
        exact h e (List.mem_cons_of_mem m he)
    exact ⟨le_min zero_le_one (by positivity), min_le_left 1 _⟩

lemma detectPlateauProbability_bounds (metrics : List ZpdMetric) :
    0 ≤ detectPlateauProbability metrics ∧ detectPlateauProbability metrics ≤ 1 := by
  rcases metrics with _ | ⟨m, _ | ⟨m2, rest⟩⟩
  · simp [detectPlateauProbability]
  · simp [detectPlateauProbability]
  · rw [show detectPlateauProbability (m :: m2 :: rest)
        = (if ((((m :: m2 :: rest).getLast (List.cons_ne_nil m (m2 :: rest))).masteryLevel
              - m.masteryLevel) / (((m :: m2 :: rest).length : ℕ) : ℚ)) < 1/50 then
            min 1 (1/2 + |(((m :: m2 :: rest).getLast
              (List.cons_ne_nil m (m2 :: rest))).masteryLevel
              - m.masteryLevel) / (((m :: m2 :: rest).length : ℕ) : ℚ)|)
          else 1/10) from rfl]
    split_ifs
    · constructor
      · apply le_min zero_le_one
        positivity
      · exact min_le_left 1 _
    · norm_num

lemma calculateConfidenceWidth_nonneg (metrics : List EmotionalMetric)
    (h : ∀ e ∈ metrics, e.bayesianConfidenceScore ≤ 1) :
    0 ≤ calculateConfidenceWidth metrics := by
  unfold calculateConfidenceWidth
  cases hL : metrics.getLast? with
  | none => norm_num
  | some m =>
    have hm : m ∈ metrics := by
      rcases List.mem_getLast?_eq_getLast (Option.mem_def.mpr hL) with ⟨hne, rfl⟩
      exact List.getLast_mem hne
    have hb : m.bayesianConfidenceScore ≤ 1 := h m hm
    apply le_min (by norm_num)
    nlinarith

lemma computePredictiveRisks_lower (e : List EmotionalMetric) (z : List ZpdMetric) :
    (computePredictiveRisks e z).riskLowerBound
      = max 0 (calculateEWMAFrustration e * (7/10) + detectPlateauProbability z * (3/10)
          - calculateConfidenceWidth e) := rfl

lemma computePredictiveRisks_upper (e : List EmotionalMetric) (z : List ZpdMetric) :
    (computePredictiveRisks e z).riskUpperBound
      = min 1 (calculateEWMAFrustration e * (7/10) + detectPlateauProbability z * (3/10)
          + calculateConfidenceWidth e) := rfl

lemma computePredictiveRisks_tier (e : List EmotionalMetric) (z : List ZpdMetric) :
    (computePredictiveRisks e z).clinicalAlertTier
      = determineAlertTier (computePredictiveRisks e z).riskLowerBound
          (computePredictiveRisks e z).riskUpperBound := rfl

/-- C9: on metric lists whose frustration scores are nonnegative and whose
Bayesian confidence scores lie in [0,1], `computePredictiveRisks` returns
a risk envelope with 0 ≤ riskLowerBound ≤ riskUpperBound ≤ 1 and a
clinical alert tier in {0, 1, 2, 3}. -/
theorem predictive_risk_envelope :
    ∀ (emotions : List EmotionalMetric) (zpd : List ZpdMetric),
      (∀ e ∈ emotions, 0 ≤ e.frustrationScore) →
      (∀ e ∈ emotions, 0 ≤ e.bayesianConfidenceScore ∧ e.bayesianConfidenceScore ≤ 1) →
      (0 ≤ (computePredictiveRisks emotions zpd).riskLowerBound ∧
        (computePredictiveRisks emotions zpd).riskLowerBound
          ≤ (computePredictiveRisks emotions zpd).riskUpperBound ∧
        (computePredictiveRisks emotions zpd).riskUpperBound ≤ 1) ∧
      ((computePredictiveRisks emotions zpd).clinicalAlertTier = 0 ∨
        (computePredictiveRisks emotions zpd).clinicalAlertTier = 1 ∨
        (computePredictiveRisks emotions zpd).clinicalAlertTier = 2 ∨
        (computePredictiveRisks emotions zpd).clinicalAlertTier = 3) := by
  intro emotions zpd hfr hbay
  obtain ⟨hf0, hf1⟩ := calculateEWMAFrustration_bounds emotions hfr
  obtain ⟨hs0, hs1⟩ := detectPlateauProbability_bounds zpd
  have hw : 0 ≤ calculateConfidenceWidth emotions :=
    calculateConfidenceWidth_nonneg emotions (fun e he => (hbay e he).2)
  constructor
  · rw [computePredictiveRisks_lower, computePredictiveRisks_upper]
    refine ⟨le_max_left 0 _, ?_, min_le_left 1 _⟩
    apply max_le
    · exact le_min (by norm_num) (by nlinarith)
    · exact le_min (by nlinarith) (by nlinarith)
  · rw [computePredictiveRisks_tier]
    unfold determineAlertTier
    split_ifs <;> norm_num

/-- Witness for C9: the envelope evaluated on concrete emotional and ZPD
metric lists satisfying the score hypotheses. -/
theorem predictive_risk_envelope_witness :
    (0 ≤ (computePredictiveRisks
          [EmotionalMetric.mk 2 (1/2), EmotionalMetric.mk 3 (3/4)]
          [ZpdMetric.mk 1, ZpdMetric.mk 2]).riskLowerBound ∧
      (computePredictiveRisks
          [EmotionalMetric.mk 2 (1/2), EmotionalMetric.mk 3 (3/4)]
          [ZpdMetric.mk 1, ZpdMetric.mk 2]).riskLowerBound
        ≤ (computePredictiveRisks
          [EmotionalMetric.mk 2 (1/2), EmotionalMetric.mk 3 (3/4)]
          [ZpdMetric.mk 1, ZpdMetric.mk 2]).riskUpperBound ∧
      (computePredictiveRisks
          [EmotionalMetric.mk 2 (1/2), EmotionalMetric.mk 3 (3/4)]
          [ZpdMetric.mk 1, ZpdMetric.mk 2]).riskUpperBound ≤ 1) ∧
    ((computePredictiveRisks
          [EmotionalMetric.mk 2 (1/2), EmotionalMetric.mk 3 (3/4)]
          [ZpdMetric.mk 1, ZpdMetric.mk 2]).clinicalAlertTier = 0 ∨
      (computePredictiveRisks
          [EmotionalMetric.mk 2 (1/2), EmotionalMetric.mk 3 (3/4)]
          [ZpdMetric.mk 1, ZpdMetric.mk 2]).clinicalAlertTier = 1 ∨
      (computePredictiveRisks
          [EmotionalMetric.mk 2 (1/2), EmotionalMetric.mk 3 (3/4)]
          [ZpdMetric.mk 1, ZpdMetric.mk 2]).clinicalAlertTier = 2 ∨
      (computePredictiveRisks
          [EmotionalMetric.mk 2 (1/2), EmotionalMetric.mk 3 (3/4)]
          [ZpdMetric.mk 1, ZpdMetric.mk 2]).clinicalAlertTier = 3) :=
  predictive_risk_envelope
    [EmotionalMetric.mk 2 (1/2), EmotionalMetric.mk 3 (3/4)]
    [ZpdMetric.mk 1, ZpdMetric.mk 2]
    (by norm_num [List.forall_mem_cons])
    (by norm_num [List.forall_mem_cons])

/-! ## Calibration lemmas -/

lemma javaIntCast_of_nonneg {q : ℚ} (h : 0 ≤ q) : javaIntCast q = ⌊q⌋ :=
  if_pos h

/-- C10: `getCalibrationMetrics` is total at its public interface: with no
calibration logs it returns the zeroed metrics with an empty calibration
curve, and for every predicted probability p in [0,1] the reliability-bin
index min(floor(p × 10), 9) lies in [0,9] — the lookup into the 10
pre-created bins never fails, including at p = 1. -/
theorem calibration_total_and_bin_bounds :
    getCalibrationMetrics []
      = { brierScore := 0, expectedCalibrationError := 0, overconfidenceIndex := 0,
          calibrationCurveData := [] } ∧
    (∀ p : ℚ, 0 ≤ p → p ≤ 1 → 0 ≤ binIndex 10 p ∧ binIndex 10 p ≤ 9) ∧
    binIndex 10 1 = 9 := by
  refine ⟨rfl, ?_, ?_⟩
  · intro p h0 h1
    unfold binIndex
    rw [javaIntCast_of_nonneg (mul_nonneg h0 (by norm_num))]
    constructor
    · refine le_min (Int.le_floor.mpr ?_) (by norm_num)
      push_cast
      positivity
    · calc min ⌊p * ((10 : ℕ) : ℚ)⌋ (((10 : ℕ) : ℤ) - 1)
          ≤ ((10 : ℕ) : ℤ) - 1 := min_le_right _ _
        _ = 9 := by norm_num
  · unfold binIndex
    rw [javaIntCast_of_nonneg (by norm_num)]
    rw [show ((1 : ℚ) * ((10 : ℕ) : ℚ)) = (((10 : ℤ) : ℚ)) by norm_num,
      Int.floor_intCast]
    norm_num

/-- Witness for C10: the bin-index bounds discharged at p = 1/2. -/
theorem calibration_total_and_bin_bounds_witness :
    0 ≤ binIndex 10 (1/2) ∧ binIndex 10 (1/2) ≤ 9 :=
  calibration_total_and_bin_bounds.2.1 (1/2) (by norm_num) (by norm_num)

end LaRa

